import Mathlib

/-!
Shallow embedding of the Cortex patch decision & orchestration engine
(`src/cortex/autonomous_patcher.py` and `src/cortex/security_scheduler.py`).

External collaborators (the vulnerability scanner's `Severity`/`Vulnerability`
types, subprocess results, the installation-history store, the clock) are
modelled as explicit parameters/oracles; each stateful operation returns a
trace structure recording both its result and the externally observable
actions it performed (commands invoked, history records written, state
mutated), so that claims about side effects become claims about the trace.
Times are modelled as integer seconds.
-/

/-- Modelled from the spec: `Severity` lives in `vulnerability_scanner.py`,
which is not under `src/`; the spec fixes the ordered set
{Critical, High, Medium, Low, Unknown}, and in-repo code fixes the enum's
string values (`Severity("critical")` etc. in `autonomous_patcher.py`). -/
inductive Severity where
  | critical
  | high
  | medium
  | low
  | unknown
deriving DecidableEq, Repr

/-- The Python enum's `.value` string, as used by
`security_scheduler.run_schedule` (`v.severity.value in ["critical", "high"]`). -/
def Severity.value : Severity → String
  | .critical => "critical"
  | .high => "high"
  | .medium => "medium"
  | .low => "low"
  | .unknown => "unknown"

/-- Modelled from the spec: `Vulnerability` lives in `vulnerability_scanner.py`
(not under `src/`); the engine only reads its package name and severity, so
only those fields are embedded. -/
structure Vulnerability where
  package_name : String
  severity : Severity
deriving DecidableEq, Repr

/-- `PatchStrategy` (autonomous_patcher.py lines 34-40). -/
inductive PatchStrategy where
  | automatic
  | critical_only
  | high_and_above
  | manual
deriving DecidableEq, Repr

/-- The patcher's filter configuration (`whitelist`, `blacklist`,
`min_severity`, `strategy` attributes of `AutonomousPatcher`); Python sets
are modelled as lists queried by membership. -/
structure PatcherConfig where
  strategy : PatchStrategy
  whitelist : List String
  blacklist : List String
  min_severity : Severity
deriving Repr

/-- The `severity_order` dict of `_should_patch` (lines 233-239). -/
def severity_order : Severity → Nat
  | .critical => 4
  | .high => 3
  | .medium => 2
  | .low => 1
  | .unknown => 0

/-- `AutonomousPatcher._should_patch` (autonomous_patcher.py lines 213-256):
blacklist check, then whitelist check, then minimum-severity check, then
strategy dispatch.  Every dict key is present, so the Python `.get(_, 0)`
defaults never fire and a total match is faithful. -/
def should_patch (cfg : PatcherConfig) (v : Vulnerability) : Bool :=
  if cfg.blacklist.contains v.package_name then false
  else if cfg.whitelist.contains v.package_name then true
  else if severity_order v.severity < severity_order cfg.min_severity then false
  else
    match cfg.strategy with
    | .critical_only => v.severity == .critical
    | .high_and_above => v.severity == .critical || v.severity == .high
    | .automatic => true
    | .manual => false

/-- Result of one `ensure_apt_updated` gate entry: the returned boolean, the
new shared `_apt_last_updated` state, and whether the external
`apt-get update` command was invoked. -/
structure GateResult where
  ok : Bool
  state : Option Int
  ran : Bool
deriving DecidableEq, Repr

/-- The freshness test of `ensure_apt_updated` (lines 165-169): a recorded
timestamp exists and the elapsed time is below the 300-second interval. -/
def freshCheck (st : Option Int) (now : Int) : Bool :=
  match st with
  | some last => decide (now - last < 300)
  | none => false

/-- `AutonomousPatcher.ensure_apt_updated` (autonomous_patcher.py lines
149-183).  The module-level `_apt_last_updated` shared state is passed and
returned explicitly; the body runs under the module lock, so one gate entry
is one atomic step.  `refreshOk` is the oracle for the external
`apt-get update -qq` command's success. -/
def ensure_apt_updated (st : Option Int) (force : Bool) (now : Int)
    (refreshOk : Bool) : GateResult :=
  if !force && freshCheck st now then
    { ok := true, state := st, ran := false }
  else
    { ok := refreshOk, state := some now, ran := true }

/-- `PatchPlan` (autonomous_patcher.py lines 43-51); the Python dict
`packages_to_update` is an insertion-ordered association list.
`estimated_duration_minutes` is a whole number of minutes (the source
computes `len * 1.0`). -/
structure PatchPlan where
  vulnerabilities : List Vulnerability
  packages_to_update : List (String × String)
  estimated_duration_minutes : Nat
  requires_reboot : Bool
  rollback_available : Bool
deriving DecidableEq, Repr

/-- `PatchResult` (autonomous_patcher.py lines 54-65), without the
time-derived `patch_id`/`timestamp`/`duration_seconds` fields, which no
claim concerns. -/
structure PatchResult where
  vulnerabilities_patched : Nat
  packages_updated : List String
  success : Bool
  errors : List String
  rollback_id : Option String
deriving DecidableEq, Repr

/-- `InstallationStatus` values the executor writes to the history store. -/
inductive InstallationStatus where
  | success
  | failed
deriving DecidableEq, Repr

/-- Trace of one `apply_patch_plan` call: the returned result plus the
externally observable actions (which installs were attempted in order,
whether the index refresh ran, whether a history record was created and its
final status). -/
structure ExecTrace where
  result : PatchResult
  installs_attempted : List String
  refresh_invoked : Bool
  history_created : Bool
  history_final : Option InstallationStatus
deriving DecidableEq, Repr

/-- The install loop of `apply_patch_plan` (lines 387-404): for each
`(package, version)` pair in order, run the install command (pinned to the
version when one is present); collect updated packages and error messages,
both in attempt order, never aborting on a failure.  `installOk` is the
oracle for the external install command's success. -/
def runInstalls (installOk : String → String → Bool) :
    List (String × String) → List String × List String
  | [] => ([], [])
  | (p, v) :: rest =>
    let r := runInstalls installOk rest
    if installOk p v then (p :: r.1, r.2)
    else (r.1, ("Failed to update " ++ p) :: r.2)

/-- `AutonomousPatcher.apply_patch_plan` (autonomous_patcher.py lines
323-455).  `refreshOk` is the oracle for the `apt-get update -qq` call,
`installOk` for each package install, `install_id` the identifier the
history store returns from `record_installation`.  `_run_command` never
raises (it reduces every failure to a boolean), so the `except` arm of the
source is unreachable in this model and the normal path is total. -/
def apply_patch_plan (dry_run : Bool) (plan : PatchPlan)
    (refreshOk : Bool) (installOk : String → String → Bool)
    (install_id : String) : ExecTrace :=
  if plan.packages_to_update.isEmpty then
    { result := { vulnerabilities_patched := 0, packages_updated := [],
                  success := true, errors := [], rollback_id := none },
      installs_attempted := [], refresh_invoked := false,
      history_created := false, history_final := none }
  else if dry_run then
    { result := { vulnerabilities_patched := plan.vulnerabilities.length,
                  packages_updated := plan.packages_to_update.map Prod.fst,
                  success := true, errors := [], rollback_id := none },
      installs_attempted := [], refresh_invoked := false,
      history_created := false, history_final := none }
  else
    let refreshErrs :=
      if refreshOk then [] else ["Failed to update package list"]
    let r := runInstalls installOk plan.packages_to_update
    let errors := refreshErrs ++ r.2
    let succ := errors.isEmpty
    { result := { vulnerabilities_patched := plan.vulnerabilities.length,
                  packages_updated := r.1, success := succ, errors := errors,
                  rollback_id := some install_id },
      installs_attempted := plan.packages_to_update.map Prod.fst,
      refresh_invoked := true, history_created := true,
      history_final := some (if succ then .success else .failed) }

/-- First-occurrence-order deduplication of the grouping keys, matching the
iteration order of the Python dict `package_vulns` built in
`create_patch_plan` (lines 291-294). -/
def dedupKeysAux (seen : List String) : List String → List String
  | [] => []
  | x :: xs =>
    if seen.contains x then dedupKeysAux seen xs
    else x :: dedupKeysAux (x :: seen) xs

def dedupKeys (l : List String) : List String := dedupKeysAux [] l

/-- Python truthiness of the `_check_package_update_available` result
(`if update_version:`): a candidate exists and is a non-empty string. -/
def hasCandidate (lookup : String → Option String) (n : String) : Bool :=
  match lookup n with
  | some v => !(v == "")
  | none => false

/-- Trace of one `create_patch_plan` call: the plan plus whether the shared
refresh gate was entered and which packages were looked up, in order. -/
structure PlanTrace where
  plan : PatchPlan
  refresh_called : Bool
  lookups : List String
deriving Repr

/-- Substring membership over the character list, modelling Python's
`"linux-image" in package_name`. -/
def strHeadMatches : List Char → List Char → Bool
  | [], _ => true
  | _ :: _, [] => false
  | p :: ps, c :: cs => p == c && strHeadMatches ps cs

def strContainsAux (pat : List Char) : List Char → Bool
  | [] => strHeadMatches pat []
  | c :: cs => strHeadMatches pat (c :: cs) || strContainsAux pat cs

def strContains (s pat : String) : Bool := strContainsAux pat.data s.data

/-- The kernel-package test of `create_patch_plan` (line 309). -/
def isKernelPackage (n : String) : Bool :=
  strContains n "linux-image" || strContains n "linux-headers"

/-- `AutonomousPatcher.create_patch_plan` (autonomous_patcher.py lines
258-321) on an explicitly supplied vulnerability list.  `lookup` is the
oracle for `_check_package_update_available` (`none` = no usable candidate).
If the policy filter leaves nothing, the empty plan returns before any
external call; otherwise the refresh gate is entered once and each distinct
package, in first-occurrence order, is looked up; packages without a usable
candidate are silently excluded. -/
def create_patch_plan (cfg : PatcherConfig) (vulns : List Vulnerability)
    (lookup : String → Option String) : PlanTrace :=
  let to_patch := vulns.filter (should_patch cfg)
  if to_patch.isEmpty then
    { plan := { vulnerabilities := [], packages_to_update := [],
                estimated_duration_minutes := 0, requires_reboot := false,
                rollback_available := true },
      refresh_called := false, lookups := [] }
  else
    let names := dedupKeys (to_patch.map (fun v => v.package_name))
    let packages := names.filterMap (fun n =>
      if hasCandidate lookup n then (lookup n).map (fun ver => (n, ver))
      else none)
    let reboot := names.any (fun n => hasCandidate lookup n && isKernelPackage n)
    { plan := { vulnerabilities := to_patch, packages_to_update := packages,
                estimated_duration_minutes := packages.length,
                requires_reboot := reboot, rollback_available := true },
      refresh_called := true, lookups := names }

/-- `ScheduleFrequency` (security_scheduler.py lines 25-31). -/
inductive ScheduleFrequency where
  | daily
  | weekly
  | monthly
  | custom
deriving DecidableEq, Repr

/-- `SecuritySchedule` (security_scheduler.py lines 34-46); timestamps are
integer seconds. -/
structure Schedule where
  schedule_id : String
  frequency : ScheduleFrequency
  scan_enabled : Bool
  patch_enabled : Bool
  patch_strategy : PatchStrategy
  dry_run : Bool
  last_run : Option Int
  next_run : Option Int
  custom_cron : Option String
deriving DecidableEq, Repr

/-- `SecurityScheduler._calculate_next_run` (security_scheduler.py lines
158-176), with the implicit `datetime.now()` made an explicit `now`
parameter; one day is 86400 seconds. -/
def calculate_next_run (frequency : ScheduleFrequency)
    (cc : Option String) (now : Int) : Option Int :=
  match frequency with
  | .daily => some (now + 86400)
  | .weekly => some (now + 7 * 86400)
  | .monthly => some (now + 30 * 86400)
  | .custom => none

/-- Modelled from the spec: the scanner's `ScanResult` lives in
`vulnerability_scanner.py` (not under `src/`); the scheduler reads its
`vulnerabilities_found` count and its `vulnerabilities` list. -/
structure ScanResult where
  vulnerabilities_found : Nat
  vulnerabilities : List Vulnerability
deriving Repr

/-- Trace of one `run_schedule` call on a stored schedule: the run's overall
success flag and error list, the schedule record after the call, whether the
schedule file was persisted, whether the update step (lines 248-254) was
reached, and — when the patcher was invoked — the vulnerability list,
strategy and dry-run flag it was handed. -/
structure RunTrace where
  success : Bool
  errors : List String
  schedule_after : Schedule
  saved : Bool
  updated : Bool
  patched_with : Option (List Vulnerability × PatchStrategy × Bool)

/-- The hard-coded Critical/High cutoff of `run_schedule` (line 231):
`v.severity.value in ["critical", "high"]`. -/
def critHighSev (v : Vulnerability) : Bool :=
  ["critical", "high"].contains v.severity.value

/-- The schedule record after the update step: `last_run` set to now,
`next_run` recomputed (security_scheduler.py lines 248-253). -/
def advanceSchedule (sched : Schedule) (now now2 : Int) : Schedule :=
  { sched with last_run := some now,
               next_run := calculate_next_run sched.frequency sched.custom_cron now2 }

/-- `SecurityScheduler.run_schedule` (security_scheduler.py lines 178-262)
on a schedule already present in the map.  `scanR` models
`scanner.scan_all_packages()` (`Except.error` = the call raised), `patchRun`
models `AutonomousPatcher(strategy, dry_run).patch_vulnerabilities(to_patch)`
as a function of the handed vulnerability list, strategy and dry-run flag.
`now` is the update step's `datetime.now()`, `now2` the one inside
`_calculate_next_run`.  `_save_schedules` catches its own exceptions, so
reaching the update step always completes it. -/
def run_schedule (sched : Schedule) (now now2 : Int)
    (scanR : Except String ScanResult)
    (patchRun : List Vulnerability → PatchStrategy → Bool → Except String PatchResult) :
    RunTrace :=
  if sched.scan_enabled then
    match scanR with
    | .error e =>
      { success := false, errors := ["Schedule execution failed: " ++ e],
        schedule_after := sched, saved := false, updated := false,
        patched_with := none }
    | .ok scan =>
      if sched.patch_enabled ∧ 0 < scan.vulnerabilities_found then
        let to_patch := scan.vulnerabilities.filter critHighSev
        match patchRun to_patch sched.patch_strategy sched.dry_run with
        | .error e =>
          { success := false, errors := ["Schedule execution failed: " ++ e],
            schedule_after := sched, saved := false, updated := false,
            patched_with := some (to_patch, sched.patch_strategy, sched.dry_run) }
        | .ok pr =>
          { success := pr.success,
            errors := if pr.success then [] else pr.errors,
            schedule_after := advanceSchedule sched now now2,
            saved := true, updated := true,
            patched_with := some (to_patch, sched.patch_strategy, sched.dry_run) }
      else
        { success := true, errors := [],
          schedule_after := advanceSchedule sched now now2,
          saved := true, updated := true, patched_with := none }
  else
    { success := true, errors := [],
      schedule_after := advanceSchedule sched now now2,
      saved := true, updated := true, patched_with := none }

/-- The real execution path attempts the install of every package in
`packages_to_update`, in iteration order, whatever the per-package and
refresh outcomes (for an empty plan there is nothing to attempt). -/
lemma apply_real_attempts (plan : PatchPlan) (r : Bool)
    (io : String → String → Bool) (iid : String) :
    (apply_patch_plan false plan r io iid).installs_attempted
      = plan.packages_to_update.map Prod.fst := by
  rcases hpk : plan.packages_to_update with _ | ⟨hd, tl⟩ <;>
    simp [apply_patch_plan, hpk]

/-- Dry-run execution always reports success, for every plan. -/
lemma apply_dry_success (plan : PatchPlan) (r : Bool)
    (io : String → String → Bool) (iid : String) :
    (apply_patch_plan true plan r io iid).result.success = true := by
  rcases hpk : plan.packages_to_update with _ | ⟨hd, tl⟩ <;>
    simp [apply_patch_plan, hpk]

/-- When every install command succeeds, the install loop updates every
package in order and collects no errors. -/
lemma runInstalls_all_ok (io : String → String → Bool)
    (l : List (String × String))
    (h : ∀ p v, (p, v) ∈ l → io p v = true) :
    runInstalls io l = (l.map Prod.fst, []) := by
  induction l with
  | nil => rfl
  | cons hd tl ih =>
    obtain ⟨p, v⟩ := hd
    have hv := h p v (List.mem_cons_self _ _)
    rw [runInstalls, ih (fun p' v' hm => h p' v' (List.mem_cons_of_mem _ hm))]
    simp [hv]

/-- C2: a blacklisted package is never patched, whatever the whitelist
(including simultaneous membership), strategy and severity floor; the
blacklist branch of `_should_patch` decides first. -/
theorem blacklist_precedence (cfg : PatcherConfig) (v : Vulnerability)
    (h : cfg.blacklist.contains v.package_name = true) :
    should_patch cfg v = false := by
  unfold should_patch
  rw [h]
  rfl

/-- Witness for C2: a package simultaneously whitelisted and blacklisted,
under the most permissive strategy and floor, is still rejected. -/
theorem blacklist_precedence_witness :
    (PatcherConfig.mk .automatic ["openssl"] ["openssl"] .unknown).blacklist.contains
      (Vulnerability.mk "openssl" .critical).package_name = true ∧
    should_patch (PatcherConfig.mk .automatic ["openssl"] ["openssl"] .unknown)
      (Vulnerability.mk "openssl" .critical) = false :=
  ⟨by decide,
   blacklist_precedence
     (PatcherConfig.mk .automatic ["openssl"] ["openssl"] .unknown)
     (Vulnerability.mk "openssl" .critical) (by decide)⟩

/-- C7: next-run computation: Daily is now + 1 day, Weekly now + 7 days,
Monthly a fixed 30-day offset, Custom no value — for every `now` and every
custom cron expression. -/
theorem calculate_next_run_spec (now : Int) (cc : Option String) :
    calculate_next_run .daily cc now = some (now + 86400) ∧
    calculate_next_run .weekly cc now = some (now + 7 * 86400) ∧
    calculate_next_run .monthly cc now = some (now + 30 * 86400) ∧
    calculate_next_run .custom cc now = none :=
  ⟨rfl, rfl, rfl, rfl⟩

/-- C3: (a) after a gate entry that performed the refresh at time `t1`, a
second non-forced entry less than 300 seconds later returns true without
running the refresh and leaves the shared timestamp unchanged, so across the
two calls the external refresh ran exactly once; (b) a forced entry always
runs the refresh; (c) every entry that does not early-return records the
shared timestamp (exactly once, to the entry's own time) and returns the
refresh command's success. -/
theorem refresh_gate_spec (st st2 st3 : Option Int) (t1 now2 now3 now4 : Int)
    (r1 r2 r3 r4 : Bool) (force : Bool)
    (h1 : (ensure_apt_updated st false t1 r1).ran = true)
    (h2 : now2 - t1 < 300)
    (h3 : (ensure_apt_updated st3 force now4 r4).ran = true) :
    (ensure_apt_updated (ensure_apt_updated st false t1 r1).state false now2 r2).ok
      = true ∧
    (ensure_apt_updated (ensure_apt_updated st false t1 r1).state false now2 r2).ran
      = false ∧
    (ensure_apt_updated (ensure_apt_updated st false t1 r1).state false now2 r2).state
      = (ensure_apt_updated st false t1 r1).state ∧
    (ensure_apt_updated st2 true now3 r3).ran = true ∧
    (ensure_apt_updated st3 force now4 r4).state = some now4 ∧
    (ensure_apt_updated st3 force now4 r4).ok = r4 := by
  have hstate : (ensure_apt_updated st false t1 r1).state = some t1 := by
    unfold ensure_apt_updated at h1 ⊢
    by_cases hb : (!false && freshCheck st t1) = true
    · rw [if_pos hb] at h1
      exact absurd h1 (by simp)
    · rw [if_neg hb]
  have hcond : (!false && freshCheck (some t1) now2) = true := by
    simp [freshCheck, h2]
  have hforce : ¬((!true && freshCheck st2 now3) = true) := by simp
  have h3' : ¬((!force && freshCheck st3 now4) = true) := by
    intro hb
    unfold ensure_apt_updated at h3
    rw [if_pos hb] at h3
    exact absurd h3 (by simp)
  refine ⟨?_, ?_, ?_, ?_, ?_, ?_⟩
  · rw [hstate]; unfold ensure_apt_updated; rw [if_pos hcond]
  · rw [hstate]; unfold ensure_apt_updated; rw [if_pos hcond]
  · rw [hstate]; unfold ensure_apt_updated; rw [if_pos hcond]
  · unfold ensure_apt_updated; rw [if_neg hforce]
  · unfold ensure_apt_updated; rw [if_neg h3']
  · unfold ensure_apt_updated; rw [if_neg h3']

/-- Witness for C3: a first refresh at time 0 from a cold state, a second
call at time 100, a forced call, and a failing non-forced call from a cold
state. -/
theorem refresh_gate_spec_witness :
    (ensure_apt_updated (ensure_apt_updated none false 0 true).state false 100 true).ok
      = true ∧
    (ensure_apt_updated (ensure_apt_updated none false 0 true).state false 100 true).ran
      = false ∧
    (ensure_apt_updated (ensure_apt_updated none false 0 true).state false 100 true).state
      = (ensure_apt_updated none false 0 true).state ∧
    (ensure_apt_updated none true 7 true).ran = true ∧
    (ensure_apt_updated none false 5 false).state = some 5 ∧
    (ensure_apt_updated none false 5 false).ok = false :=
  refresh_gate_spec none none none 0 100 7 5 true true true false false
    (by decide) (by decide) (by decide)

/-- C1: with the index refresh succeeding, real execution of a two-package
plan where the first install succeeds and the second fails reports exactly
the first package updated, one error, overall failure, and the history
record's identifier as rollback id; both installs are attempted, and in
general the real path attempts every package of any plan in iteration order
regardless of earlier failures. -/
theorem partial_failure_continues (plan plan2 : PatchPlan)
    (a va b vb iid iid2 : String)
    (installOk io2 : String → String → Bool) (r2 : Bool)
    (hpkgs : plan.packages_to_update = [(a, va), (b, vb)])
    (hA : installOk a va = true) (hB : installOk b vb = false) :
    (apply_patch_plan false plan true installOk iid).result.packages_updated = [a] ∧
    (apply_patch_plan false plan true installOk iid).result.errors.length = 1 ∧
    (apply_patch_plan false plan true installOk iid).result.success = false ∧
    (apply_patch_plan false plan true installOk iid).result.rollback_id = some iid ∧
    (apply_patch_plan false plan true installOk iid).installs_attempted = [a, b] ∧
    (apply_patch_plan false plan2 r2 io2 iid2).installs_attempted
      = plan2.packages_to_update.map Prod.fst := by
  refine ⟨?_, ?_, ?_, ?_, ?_, apply_real_attempts plan2 r2 io2 iid2⟩ <;>
    simp [apply_patch_plan, hpkgs, runInstalls, hA, hB]

/-- Witness for C1: packages "pkgA" (succeeds) then "pkgB" (fails). -/
theorem partial_failure_continues_witness :
    (apply_patch_plan false
        (PatchPlan.mk [] [("pkgA", "1"), ("pkgB", "2")] 2 false true) true
        (fun p _ => p == "pkgA") "inst1").result.packages_updated = ["pkgA"] ∧
    (apply_patch_plan false
        (PatchPlan.mk [] [("pkgA", "1"), ("pkgB", "2")] 2 false true) true
        (fun p _ => p == "pkgA") "inst1").result.errors.length = 1 ∧
    (apply_patch_plan false
        (PatchPlan.mk [] [("pkgA", "1"), ("pkgB", "2")] 2 false true) true
        (fun p _ => p == "pkgA") "inst1").result.success = false ∧
    (apply_patch_plan false
        (PatchPlan.mk [] [("pkgA", "1"), ("pkgB", "2")] 2 false true) true
        (fun p _ => p == "pkgA") "inst1").result.rollback_id = some "inst1" ∧
    (apply_patch_plan false
        (PatchPlan.mk [] [("pkgA", "1"), ("pkgB", "2")] 2 false true) true
        (fun p _ => p == "pkgA") "inst1").installs_attempted = ["pkgA", "pkgB"] ∧
    (apply_patch_plan false (PatchPlan.mk [] [] 0 false true) true
        (fun _ _ => true) "inst2").installs_attempted
      = (PatchPlan.mk [] [] 0 false true).packages_to_update.map Prod.fst :=
  partial_failure_continues
    (PatchPlan.mk [] [("pkgA", "1"), ("pkgB", "2")] 2 false true)
    (PatchPlan.mk [] [] 0 false true)
    "pkgA" "1" "pkgB" "2" "inst1" "inst2"
    (fun p _ => p == "pkgA") (fun _ _ => true) true
    rfl (by decide) (by decide)

/-- C4: dry-run application of a plan with non-empty `packages_to_update`
performs no external calls (no install attempt, no refresh, no history
record), succeeds, lists every key of `packages_to_update` as updated,
counts every plan vulnerability as patched, and assigns no rollback id;
moreover dry-run execution reports success for every plan whatsoever. -/
theorem dry_run_spec (plan plan2 : PatchPlan)
    (installOk io2 : String → String → Bool) (refreshOk r2 : Bool)
    (iid iid2 : String)
    (hne : plan.packages_to_update ≠ []) :
    (apply_patch_plan true plan refreshOk installOk iid).installs_attempted = [] ∧
    (apply_patch_plan true plan refreshOk installOk iid).refresh_invoked = false ∧
    (apply_patch_plan true plan refreshOk installOk iid).history_created = false ∧
    (apply_patch_plan true plan refreshOk installOk iid).result.success = true ∧
    (apply_patch_plan true plan refreshOk installOk iid).result.packages_updated
      = plan.packages_to_update.map Prod.fst ∧
    (apply_patch_plan true plan refreshOk installOk iid).result.vulnerabilities_patched
      = plan.vulnerabilities.length ∧
    (apply_patch_plan true plan refreshOk installOk iid).result.rollback_id = none ∧
    (apply_patch_plan true plan2 r2 io2 iid2).result.success = true := by
  rcases hpk : plan.packages_to_update with _ | ⟨hd, tl⟩
  · exact absurd hpk hne
  · refine ⟨?_, ?_, ?_, ?_, ?_, ?_, ?_, apply_dry_success plan2 r2 io2 iid2⟩ <;>
      simp [apply_patch_plan, hpk]

/-- Witness for C4: a one-package plan in dry-run mode. -/
theorem dry_run_spec_witness :
    (apply_patch_plan true
        (PatchPlan.mk [Vulnerability.mk "openssl" .critical] [("openssl", "3")] 1 false true)
        true (fun _ _ => false) "inst1").installs_attempted = [] ∧
    (apply_patch_plan true
        (PatchPlan.mk [Vulnerability.mk "openssl" .critical] [("openssl", "3")] 1 false true)
        true (fun _ _ => false) "inst1").refresh_invoked = false ∧
    (apply_patch_plan true
        (PatchPlan.mk [Vulnerability.mk "openssl" .critical] [("openssl", "3")] 1 false true)
        true (fun _ _ => false) "inst1").history_created = false ∧
    (apply_patch_plan true
        (PatchPlan.mk [Vulnerability.mk "openssl" .critical] [("openssl", "3")] 1 false true)
        true (fun _ _ => false) "inst1").result.success = true ∧
    (apply_patch_plan true
        (PatchPlan.mk [Vulnerability.mk "openssl" .critical] [("openssl", "3")] 1 false true)
        true (fun _ _ => false) "inst1").result.packages_updated
      = (PatchPlan.mk [Vulnerability.mk "openssl" .critical] [("openssl", "3")] 1 false
          true).packages_to_update.map Prod.fst ∧
    (apply_patch_plan true
        (PatchPlan.mk [Vulnerability.mk "openssl" .critical] [("openssl", "3")] 1 false true)
        true (fun _ _ => false) "inst1").result.vulnerabilities_patched
      = (PatchPlan.mk [Vulnerability.mk "openssl" .critical] [("openssl", "3")] 1 false
          true).vulnerabilities.length ∧
    (apply_patch_plan true
        (PatchPlan.mk [Vulnerability.mk "openssl" .critical] [("openssl", "3")] 1 false true)
        true (fun _ _ => false) "inst1").result.rollback_id = none ∧
    (apply_patch_plan true (PatchPlan.mk [] [] 0 false true) false
        (fun _ _ => false) "inst2").result.success = true :=
  dry_run_spec
    (PatchPlan.mk [Vulnerability.mk "openssl" .critical] [("openssl", "3")] 1 false true)
    (PatchPlan.mk [] [] 0 false true)
    (fun _ _ => false) (fun _ _ => false) true false "inst1" "inst2" (by decide)

/-- C10: in real execution of a non-empty plan, a failed initial index
refresh is recorded as an error and forces overall failure and a failed
history record, even when every package install succeeds — all packages
still appear in `packages_updated`. -/
theorem refresh_failure_forces_failure (plan : PatchPlan)
    (installOk : String → String → Bool) (iid : String)
    (hne : plan.packages_to_update ≠ [])
    (hall : ∀ p v, (p, v) ∈ plan.packages_to_update → installOk p v = true) :
    (apply_patch_plan false plan false installOk iid).result.errors
      = ["Failed to update package list"] ∧
    (apply_patch_plan false plan false installOk iid).result.success = false ∧
    (apply_patch_plan false plan false installOk iid).history_final
      = some .failed ∧
    (apply_patch_plan false plan false installOk iid).result.packages_updated
      = plan.packages_to_update.map Prod.fst := by
  have hrun := runInstalls_all_ok installOk plan.packages_to_update hall
  rcases hpk : plan.packages_to_update with _ | ⟨hd, tl⟩
  · exact absurd hpk hne
  · rw [hpk] at hrun
    refine ⟨?_, ?_, ?_, ?_⟩ <;> simp [apply_patch_plan, hpk, hrun]

/-- Witness for C10: one package whose install succeeds, refresh failing. -/
theorem refresh_failure_forces_failure_witness :
    (apply_patch_plan false (PatchPlan.mk [] [("openssl", "3")] 1 false true)
        false (fun _ _ => true) "inst1").result.errors
      = ["Failed to update package list"] ∧
    (apply_patch_plan false (PatchPlan.mk [] [("openssl", "3")] 1 false true)
        false (fun _ _ => true) "inst1").result.success = false ∧
    (apply_patch_plan false (PatchPlan.mk [] [("openssl", "3")] 1 false true)
        false (fun _ _ => true) "inst1").history_final = some .failed ∧
    (apply_patch_plan false (PatchPlan.mk [] [("openssl", "3")] 1 false true)
        false (fun _ _ => true) "inst1").result.packages_updated
      = (PatchPlan.mk [] [("openssl", "3")] 1 false
          true).packages_to_update.map Prod.fst :=
  refresh_failure_forces_failure
    (PatchPlan.mk [] [("openssl", "3")] 1 false true)
    (fun _ _ => true) "inst1" (by decide) (fun _ _ _ => rfl)

/-- C8: when the policy filter removes every vulnerability (the empty list
included), `create_patch_plan` returns the empty plan immediately: empty
vulnerability list, empty `packages_to_update`, zero estimated duration,
no reboot, rollback available — without entering the refresh gate or looking
up any package. -/
theorem empty_filter_empty_plan (cfg : PatcherConfig)
    (vulns : List Vulnerability) (lookup : String → Option String)
    (h : vulns.filter (should_patch cfg) = []) :
    (create_patch_plan cfg vulns lookup).plan.vulnerabilities = [] ∧
    (create_patch_plan cfg vulns lookup).plan.packages_to_update = [] ∧
    (create_patch_plan cfg vulns lookup).plan.estimated_duration_minutes = 0 ∧
    (create_patch_plan cfg vulns lookup).plan.requires_reboot = false ∧
    (create_patch_plan cfg vulns lookup).plan.rollback_available = true ∧
    (create_patch_plan cfg vulns lookup).refresh_called = false ∧
    (create_patch_plan cfg vulns lookup).lookups = [] := by
  refine ⟨?_, ?_, ?_, ?_, ?_, ?_, ?_⟩ <;> simp [create_patch_plan, h]

/-- Witness for C8: a single medium vulnerability under the critical-only
strategy with a medium floor is filtered out entirely. -/
theorem empty_filter_empty_plan_witness :
    (create_patch_plan (PatcherConfig.mk .critical_only [] [] .medium)
        [Vulnerability.mk "zlib" .medium]
        (fun _ => some "1")).plan.vulnerabilities = [] ∧
    (create_patch_plan (PatcherConfig.mk .critical_only [] [] .medium)
        [Vulnerability.mk "zlib" .medium]
        (fun _ => some "1")).plan.packages_to_update = [] ∧
    (create_patch_plan (PatcherConfig.mk .critical_only [] [] .medium)
        [Vulnerability.mk "zlib" .medium]
        (fun _ => some "1")).plan.estimated_duration_minutes = 0 ∧
    (create_patch_plan (PatcherConfig.mk .critical_only [] [] .medium)
        [Vulnerability.mk "zlib" .medium]
        (fun _ => some "1")).plan.requires_reboot = false ∧
    (create_patch_plan (PatcherConfig.mk .critical_only [] [] .medium)
        [Vulnerability.mk "zlib" .medium]
        (fun _ => some "1")).plan.rollback_available = true ∧
    (create_patch_plan (PatcherConfig.mk .critical_only [] [] .medium)
        [Vulnerability.mk "zlib" .medium]
        (fun _ => some "1")).refresh_called = false ∧
    (create_patch_plan (PatcherConfig.mk .critical_only [] [] .medium)
        [Vulnerability.mk "zlib" .medium]
        (fun _ => some "1")).lookups = [] :=
  empty_filter_empty_plan (PatcherConfig.mk .critical_only [] [] .medium)
    [Vulnerability.mk "zlib" .medium] (fun _ => some "1") (by decide)

/-- Dedup keeps only elements of the original list. -/
lemma mem_dedupKeysAux {x : String} (l : List String) :
    ∀ seen, x ∈ dedupKeysAux seen l → x ∈ l := by
  induction l with
  | nil => intro seen h; exact absurd h (List.not_mem_nil x)
  | cons hd tl ih =>
    intro seen h
    rw [dedupKeysAux] at h
    split at h
    · exact List.mem_cons_of_mem _ (ih _ h)
    · rcases List.mem_cons.mp h with h1 | h2
      · exact h1 ▸ List.mem_cons_self _ _
      · exact List.mem_cons_of_mem _ (ih _ h2)

/-- C9: every key of the returned plan's `packages_to_update` is a package
name occurring in the returned plan's filtered vulnerability list. -/
theorem keys_subset_vulns (cfg : PatcherConfig) (vulns : List Vulnerability)
    (lookup : String → Option String) (n : String)
    (h : n ∈ (create_patch_plan cfg vulns lookup).plan.packages_to_update.map
        Prod.fst) :
    n ∈ (create_patch_plan cfg vulns lookup).plan.vulnerabilities.map
        (fun v => v.package_name) := by
  unfold create_patch_plan at h ⊢
  by_cases he : (vulns.filter (should_patch cfg)).isEmpty = true
  · rw [if_pos he] at h
    simp at h
  · rw [if_neg he] at h ⊢
    simp only [List.mem_map] at h ⊢
    rcases h with ⟨pair, hpair, hfst⟩
    rcases List.mem_filterMap.mp hpair with ⟨m, hm, hfm⟩
    have hmn : m = n := by
      by_cases hc : hasCandidate lookup m = true
      · rw [if_pos hc] at hfm
        rcases Option.map_eq_some'.mp hfm with ⟨ver, _, hpe⟩
        rw [← hpe] at hfst
        exact hfst
      · rw [if_neg hc] at hfm
        exact absurd hfm (by simp)
    subst hmn
    have hmem := mem_dedupKeysAux _ _ hm
    rcases List.mem_map.mp hmem with ⟨v, hv, hvn⟩
    exact ⟨v, hv, hvn⟩

/-- Witness for C9: one critical vulnerability on "openssl" under the
automatic strategy, with a candidate version available. -/
theorem keys_subset_vulns_witness :
    "openssl" ∈ (create_patch_plan (PatcherConfig.mk .automatic [] [] .unknown)
        [Vulnerability.mk "openssl" .critical]
        (fun _ => some "3")).plan.packages_to_update.map Prod.fst ∧
    "openssl" ∈ (create_patch_plan (PatcherConfig.mk .automatic [] [] .unknown)
        [Vulnerability.mk "openssl" .critical]
        (fun _ => some "3")).plan.vulnerabilities.map (fun v => v.package_name) :=
  ⟨by decide,
   keys_subset_vulns (PatcherConfig.mk .automatic [] [] .unknown)
     [Vulnerability.mk "openssl" .critical] (fun _ => some "3") "openssl"
     (by decide)⟩

/-- A run that reaches the update step leaves the schedule advanced
(`last_run` set, `next_run` recomputed) and persisted. -/
lemma run_schedule_advance (sched : Schedule) (now now2 : Int)
    (scanR : Except String ScanResult)
    (patchRun : List Vulnerability → PatchStrategy → Bool →
      Except String PatchResult)
    (h : (run_schedule sched now now2 scanR patchRun).updated = true) :
    (run_schedule sched now now2 scanR patchRun).schedule_after
        = advanceSchedule sched now now2 ∧
    (run_schedule sched now now2 scanR patchRun).saved = true := by
  cases hs : sched.scan_enabled with
  | false => simp [run_schedule, hs]
  | true =>
    cases scanR with
    | error e => simp [run_schedule, hs] at h
    | ok scan =>
      cases hp1 : sched.patch_enabled with
      | false => simp [run_schedule, hs, hp1]
      | true =>
        by_cases hp2 : 0 < scan.vulnerabilities_found
        · cases hp : patchRun (scan.vulnerabilities.filter critHighSev)
              sched.patch_strategy sched.dry_run with
          | error e => simp [run_schedule, hs, hp1, hp2, hp] at h
          | ok pr => simp [run_schedule, hs, hp1, hp2, hp]
        · simp [run_schedule, hs, hp1, hp2]

/-- A run that raises before the update step leaves the schedule untouched
and unpersisted, and reports failure with exactly one captured error. -/
lemma run_schedule_exception (sched : Schedule) (now now2 : Int)
    (scanR : Except String ScanResult)
    (patchRun : List Vulnerability → PatchStrategy → Bool →
      Except String PatchResult)
    (h : (run_schedule sched now now2 scanR patchRun).updated = false) :
    (run_schedule sched now now2 scanR patchRun).schedule_after = sched ∧
    (run_schedule sched now now2 scanR patchRun).success = false ∧
    (run_schedule sched now now2 scanR patchRun).errors.length = 1 ∧
    (run_schedule sched now now2 scanR patchRun).saved = false := by
  cases hs : sched.scan_enabled with
  | false => simp [run_schedule, hs] at h
  | true =>
    cases scanR with
    | error e => simp [run_schedule, hs]
    | ok scan =>
      cases hp1 : sched.patch_enabled with
      | false => simp [run_schedule, hs, hp1] at h
      | true =>
        by_cases hp2 : 0 < scan.vulnerabilities_found
        · cases hp : patchRun (scan.vulnerabilities.filter critHighSev)
              sched.patch_strategy sched.dry_run with
          | error e => simp [run_schedule, hs, hp1, hp2, hp]
          | ok pr => simp [run_schedule, hs, hp1, hp2, hp] at h
        · simp [run_schedule, hs, hp1, hp2] at h

/-- A patch step that returns a failed result still lets the run reach the
update step, with the overall run marked failed. -/
lemma run_schedule_patch_failed (sched : Schedule) (now now2 : Int)
    (scan : ScanResult) (pr : PatchResult)
    (patchRun : List Vulnerability → PatchStrategy → Bool →
      Except String PatchResult)
    (h1 : sched.scan_enabled = true) (h2 : sched.patch_enabled = true)
    (h3 : 0 < scan.vulnerabilities_found)
    (h4 : patchRun (scan.vulnerabilities.filter critHighSev)
        sched.patch_strategy sched.dry_run = .ok pr)
    (h5 : pr.success = false) :
    (run_schedule sched now now2 (.ok scan) patchRun).updated = true ∧
    (run_schedule sched now now2 (.ok scan) patchRun).success = false := by
  simp [run_schedule, h1, h2, h3, h4, h5]

/-- C5: (group A) every run of a stored schedule that reaches the update
step sets `last_run` to the run's current time, recomputes `next_run` from
the schedule's frequency, and persists; (group B) a run from which an
exception escapes before the update step reports failure with that
exception as the single captured error and leaves the schedule record
untouched and unpersisted; (group C) a run whose patch step reports failure
still reaches the update step — the overall run is marked failed but
`last_run` still advances. -/
theorem schedule_advance_spec (schedA schedB schedC : Schedule)
    (nowA nowA2 nowB nowB2 nowC nowC2 : Int)
    (scanA scanB : Except String ScanResult) (scanC : ScanResult)
    (patchA patchB patchC : List Vulnerability → PatchStrategy → Bool →
      Except String PatchResult)
    (prC : PatchResult)
    (hA : (run_schedule schedA nowA nowA2 scanA patchA).updated = true)
    (hB : (run_schedule schedB nowB nowB2 scanB patchB).updated = false)
    (hC1 : schedC.scan_enabled = true) (hC2 : schedC.patch_enabled = true)
    (hC3 : 0 < scanC.vulnerabilities_found)
    (hC4 : patchC (scanC.vulnerabilities.filter critHighSev)
        schedC.patch_strategy schedC.dry_run = .ok prC)
    (hC5 : prC.success = false) :
    (run_schedule schedA nowA nowA2 scanA patchA).schedule_after.last_run
      = some nowA ∧
    (run_schedule schedA nowA nowA2 scanA patchA).schedule_after.next_run
      = calculate_next_run schedA.frequency schedA.custom_cron nowA2 ∧
    (run_schedule schedA nowA nowA2 scanA patchA).saved = true ∧
    (run_schedule schedB nowB nowB2 scanB patchB).schedule_after = schedB ∧
    (run_schedule schedB nowB nowB2 scanB patchB).success = false ∧
    (run_schedule schedB nowB nowB2 scanB patchB).errors.length = 1 ∧
    (run_schedule schedB nowB nowB2 scanB patchB).saved = false ∧
    (run_schedule schedC nowC nowC2 (.ok scanC) patchC).updated = true ∧
    (run_schedule schedC nowC nowC2 (.ok scanC) patchC).success = false ∧
    (run_schedule schedC nowC nowC2 (.ok scanC) patchC).schedule_after.last_run
      = some nowC := by
  obtain ⟨ha1, ha2⟩ := run_schedule_advance schedA nowA nowA2 scanA patchA hA
  obtain ⟨hb1, hb2, hb3, hb4⟩ :=
    run_schedule_exception schedB nowB nowB2 scanB patchB hB
  obtain ⟨hc1, hc2⟩ := run_schedule_patch_failed schedC nowC nowC2 scanC prC
    patchC hC1 hC2 hC3 hC4 hC5
  obtain ⟨hc3, _⟩ := run_schedule_advance schedC nowC nowC2 (.ok scanC) patchC hc1
  refine ⟨?_, ?_, ha2, hb1, hb2, hb3, hb4, hc1, hc2, ?_⟩
  · rw [ha1]; rfl
  · rw [ha1]; rfl
  · rw [hc3]; rfl

/-- Witness for C5: group A runs a scan-disabled schedule; group B a
scan-enabled schedule whose scanner raises; group C a scan+patch schedule
whose patch step returns a failed result. -/
theorem schedule_advance_spec_witness :
    (run_schedule
        (Schedule.mk "s1" .daily false false .critical_only true none none none)
        10 11 (.ok (ScanResult.mk 0 []))
        (fun _ _ _ => .ok (PatchResult.mk 0 [] true [] none))).schedule_after.last_run
      = some 10 ∧
    (run_schedule
        (Schedule.mk "s1" .daily false false .critical_only true none none none)
        10 11 (.ok (ScanResult.mk 0 []))
        (fun _ _ _ => .ok (PatchResult.mk 0 [] true [] none))).schedule_after.next_run
      = calculate_next_run
          (Schedule.mk "s1" .daily false false .critical_only true none none
            none).frequency
          (Schedule.mk "s1" .daily false false .critical_only true none none
            none).custom_cron 11 ∧
    (run_schedule
        (Schedule.mk "s1" .daily false false .critical_only true none none none)
        10 11 (.ok (ScanResult.mk 0 []))
        (fun _ _ _ => .ok (PatchResult.mk 0 [] true [] none))).saved = true ∧
    (run_schedule
        (Schedule.mk "s2" .weekly true false .critical_only true none none none)
        20 21 (.error "scanner crashed")
        (fun _ _ _ => .ok (PatchResult.mk 0 [] true [] none))).schedule_after
      = Schedule.mk "s2" .weekly true false .critical_only true none none none ∧
    (run_schedule
        (Schedule.mk "s2" .weekly true false .critical_only true none none none)
        20 21 (.error "scanner crashed")
        (fun _ _ _ => .ok (PatchResult.mk 0 [] true [] none))).success = false ∧
    (run_schedule
        (Schedule.mk "s2" .weekly true false .critical_only true none none none)
        20 21 (.error "scanner crashed")
        (fun _ _ _ => .ok (PatchResult.mk 0 [] true [] none))).errors.length = 1 ∧
    (run_schedule
        (Schedule.mk "s2" .weekly true false .critical_only true none none none)
        20 21 (.error "scanner crashed")
        (fun _ _ _ => .ok (PatchResult.mk 0 [] true [] none))).saved = false ∧
    (run_schedule
        (Schedule.mk "s3" .monthly true true .critical_only false none none none)
        30 31 (.ok (ScanResult.mk 1 [Vulnerability.mk "openssl" .critical]))
        (fun _ _ _ => .ok (PatchResult.mk 0 [] false ["install failed"] none))).updated
      = true ∧
    (run_schedule
        (Schedule.mk "s3" .monthly true true .critical_only false none none none)
        30 31 (.ok (ScanResult.mk 1 [Vulnerability.mk "openssl" .critical]))
        (fun _ _ _ => .ok (PatchResult.mk 0 [] false ["install failed"] none))).success
      = false ∧
    (run_schedule
        (Schedule.mk "s3" .monthly true true .critical_only false none none none)
        30 31 (.ok (ScanResult.mk 1 [Vulnerability.mk "openssl" .critical]))
        (fun _ _ _ =>
          .ok (PatchResult.mk 0 [] false ["install failed"] none))).schedule_after.last_run
      = some 30 :=
  schedule_advance_spec
    (Schedule.mk "s1" .daily false false .critical_only true none none none)
    (Schedule.mk "s2" .weekly true false .critical_only true none none none)
    (Schedule.mk "s3" .monthly true true .critical_only false none none none)
    10 11 20 21 30 31
    (.ok (ScanResult.mk 0 [])) (.error "scanner crashed")
    (ScanResult.mk 1 [Vulnerability.mk "openssl" .critical])
    (fun _ _ _ => .ok (PatchResult.mk 0 [] true [] none))
    (fun _ _ _ => .ok (PatchResult.mk 0 [] true [] none))
    (fun _ _ _ => .ok (PatchResult.mk 0 [] false ["install failed"] none))
    (PatchResult.mk 0 [] false ["install failed"] none)
    rfl rfl rfl rfl (by decide) rfl rfl

/-- The hard-coded cutoff accepts exactly the Critical and High severities. -/
lemma critHighSev_eq (v : Vulnerability) :
    critHighSev v
      = (v.severity == Severity.critical || v.severity == Severity.high) := by
  unfold critHighSev
  cases hv : v.severity <;> decide

/-- C6: in a scan-enabled, patch-enabled schedule run whose scan found at
least one vulnerability, the patcher is invoked exactly once, handed exactly
the scan findings of Critical or High severity — a fixed cutoff that
mentions no configurable severity floor — together with the schedule's own
strategy and dry-run flag. -/
theorem scheduled_patch_filter (sched : Schedule) (now now2 : Int)
    (scan : ScanResult)
    (patchRun : List Vulnerability → PatchStrategy → Bool →
      Except String PatchResult)
    (h1 : sched.scan_enabled = true) (h2 : sched.patch_enabled = true)
    (h3 : 0 < scan.vulnerabilities_found) :
    (run_schedule sched now now2 (.ok scan) patchRun).patched_with
      = some (scan.vulnerabilities.filter
            (fun v => v.severity == Severity.critical
              || v.severity == Severity.high),
          sched.patch_strategy, sched.dry_run) := by
  have hfun : critHighSev = (fun v => v.severity == Severity.critical
      || v.severity == Severity.high) := funext critHighSev_eq
  have hfil : scan.vulnerabilities.filter critHighSev
      = scan.vulnerabilities.filter
          (fun v => v.severity == Severity.critical
            || v.severity == Severity.high) := by rw [hfun]
  cases hp : patchRun (scan.vulnerabilities.filter critHighSev)
      sched.patch_strategy sched.dry_run with
  | error e =>
    rw [hfil] at hp
    simp [run_schedule, h1, h2, h3, hfil, hp]
  | ok pr =>
    rw [hfil] at hp
    simp [run_schedule, h1, h2, h3, hfil, hp]

/-- Witness for C6: a scan that found one critical, one medium and one high
vulnerability hands the patcher exactly the critical and high ones. -/
theorem scheduled_patch_filter_witness :
    (run_schedule
        (Schedule.mk "s4" .daily true true .high_and_above false none none none)
        40 41
        (.ok (ScanResult.mk 3
          [Vulnerability.mk "a" .critical, Vulnerability.mk "b" .medium,
           Vulnerability.mk "c" .high]))
        (fun _ _ _ => .ok (PatchResult.mk 0 [] true [] none))).patched_with
      = some ((ScanResult.mk 3
            [Vulnerability.mk "a" .critical, Vulnerability.mk "b" .medium,
             Vulnerability.mk "c" .high]).vulnerabilities.filter
            (fun v => v.severity == Severity.critical
              || v.severity == Severity.high),
          (Schedule.mk "s4" .daily true true .high_and_above false none none
            none).patch_strategy,
          (Schedule.mk "s4" .daily true true .high_and_above false none none
            none).dry_run) :=
  scheduled_patch_filter
    (Schedule.mk "s4" .daily true true .high_and_above false none none none)
    40 41
    (ScanResult.mk 3
      [Vulnerability.mk "a" .critical, Vulnerability.mk "b" .medium,
       Vulnerability.mk "c" .high])
    (fun _ _ _ => .ok (PatchResult.mk 0 [] true [] none))
    rfl rfl (by decide)
